import Mathlib

/-!
A shallow embedding of the `b93` virtual machine (`src/b93.rs`): the grid
loader `B93::from_stream` and the execution engine `B93::step`, together with
theorems checking the specification's claims against this embedding.

Modelling conventions:
* Bytes are `Nat` values (every byte the Rust code stores is `< 256`; no claim
  depends on the upper bound, so we do not track it in the type).
* The playfield `[[u8; 80]; 25]` is a total function `Nat → Nat → Nat`; the
  Rust code only indexes it after its own bounds checks, so out-of-range
  indices are never consulted.
* The stack `Vec<i64>` is a `List Int` with the TOP of the stack at the HEAD
  (Rust keeps the top at the end of the `Vec`); hence Rust's
  `stack.pop().unwrap_or(0)` is `headD 0` / `tail` and Rust's
  `stack.first()` (the bottom, oldest element) is `getLastD 0`.
  `i64` values are `Int`s; the arithmetic instructions are where the `i64`
  range matters, and their arms check it explicitly (next bullets).
* Rust `i64` `+`/`-`/`*` overflow is profile-dependent: debug builds panic,
  release builds wrap two's-complement.  The model marks an arithmetic step
  whose true result falls outside the `i64` range as `Outcome.trap` (the
  checked/debug semantics, as in the Aeneas scalar model); every theorem
  below asserts a pushed value only under an in-range hypothesis, i.e. on
  the overflow-free region where both profiles agree and the pushed value
  is the mathematical one.
* The byte input channel is a `List Nat` of pending bytes; reads at
  end-of-stream behave as the Rust reader does (`read_line` returns an empty
  line, `read_exact` fails with an I/O error).  The byte output channel is
  returned as the `List Nat` of bytes written by the step.  Write errors on
  the output channel come from the environment and are not modelled.
* `rng.gen_range(0..4)` yields exactly a value in `{0,1,2,3}`, modelled as a
  `Fin 4` argument, so the `panic!("impossible RNG result")` arm is
  unrepresentable, exactly as in the source.
* Rust `i64` division/remainder truncate toward zero and panic — in every
  build profile — on a zero divisor and on `i64::MIN / -1` (resp.
  `i64::MIN % -1`); we model the value as `Int.tdiv` / `Int.tmod` (Lean's
  truncating pair) and both panic conditions as `Outcome.trap`.
-/

/-- Mirrors `enum Error` in `src/b93.rs`.  `InvalidNumeric` carries the raw
line read from the input channel, as a list of bytes. -/
inductive Error where
  | InvalidCharacter (n : Int)
  | InvalidInstruction (i : Nat)
  | InvalidNumeric (s : List Nat)
  | IOError
  | PlayfieldTooWide
  | PlayfieldTooTall
deriving DecidableEq, Repr

/-- Mirrors `enum Direction` in `src/b93.rs`. -/
inductive Direction where
  | Up
  | Down
  | Left
  | Right
deriving DecidableEq, Repr

/-- The playfield `[[u8; 80]; 25]`, as a total function on coordinates. -/
abbrev Playfield := Nat → Nat → Nat

/-- Point update of a playfield cell (`self.playfield[x][y] = b`). -/
def updPF (pf : Playfield) (x y v : Nat) : Playfield :=
  fun x' y' => if x' = x ∧ y' = y then v else pf x' y'

/-- The all-spaces playfield `[[b' '; 80]; 25]`. -/
def spacePF : Playfield := fun _ _ => 32

/-- Mirrors `struct B93` in `src/b93.rs`.  The coordinates `i`, `j` are `u8`
in Rust; reachable states keep them below 25 resp. 80, where `u8` and `Nat`
arithmetic agree. -/
structure B93 where
  playfield : Playfield
  stack : List Int
  i : Nat
  j : Nat
  dir : Direction
  bridge : Bool
  strMode : Bool

namespace B93

/-- `B93::new`. -/
def new (pf : Playfield) : B93 :=
  { playfield := pf
    stack := []
    i := 0
    j := 0
    dir := .Right
    bridge := false
    strMode := false }

/-- `B93::default` (`Self::new([[b' '; 80]; 25])`). -/
def defaultB93 : B93 := new spacePF

/-- `fn push`: `self.stack.push(val)` (top of stack at the list head). -/
def push (m : B93) (val : Int) : B93 := { m with stack := val :: m.stack }

/-- `fn pop`: `self.stack.pop().unwrap_or(0)`, returning the popped value and
the updated machine. -/
def pop (m : B93) : Int × B93 :=
  (m.stack.headD 0, { m with stack := m.stack.tail })

/-- `fn peek`: `self.stack.first().copied().unwrap_or(0)` — the BOTTOM
(oldest element) of the stack, which is the last element of our
top-at-the-head list. -/
def peek (m : B93) : Int := m.stack.getLastD 0

/-- `fn next_instruction`: the byte under the instruction pointer. -/
def next_instruction (m : B93) : Nat := m.playfield m.i m.j

/-- `fn advance_pc`: move the instruction pointer one cell in the current
direction with toroidal wraparound. -/
def advance_pc (m : B93) : B93 :=
  match m.dir with
  | .Up => { m with i := if m.i = 0 then 24 else m.i - 1 }
  | .Down => { m with i := (m.i + 1) % 25 }
  | .Left => { m with j := if m.j = 0 then 79 else m.j - 1 }
  | .Right => { m with j := (m.j + 1) % 80 }

end B93

/-- The loader loop of `B93::from_stream` (`src/b93.rs` lines 83-113),
mirrored byte for byte: state is the playfield built so far, the row `i`,
the column `j`, and the `maybe_crlf` flag. -/
def loadLoop : List Nat → Playfield → Nat → Nat → Bool → Except Error Playfield
  | [], pf, _, _, _ => .ok pf
  | b :: rest, pf, i, j, maybe_crlf =>
    if maybe_crlf ∧ b = 10 then
      loadLoop rest pf i j false
    else
      let maybe_crlf' := if b = 13 then true else maybe_crlf
      if b = 13 ∨ b = 10 then
        loadLoop rest pf (i + 1) 0 maybe_crlf'
      else if 25 ≤ i then
        .error .PlayfieldTooWide
      else if 80 ≤ j then
        .error .PlayfieldTooTall
      else
        loadLoop rest (updPF pf i j b) i (j + 1) maybe_crlf'

/-- `B93::from_stream`: consume the whole byte stream and build the engine. -/
def fromStream (buf : List Nat) : Except Error B93 :=
  (loadLoop buf spacePF 0 0 false).map B93.new

/-- The result of one `B93::step` call, `Result<Option<()>, Error>` in Rust,
with `trap` standing for the process-aborting panic that Rust's `/` and `%`
raise on a zero divisor. -/
inductive Outcome where
  | cont
  | halt
  | err (e : Error)
  | trap
deriving DecidableEq, Repr

/-- Everything one `B93::step` call produces: the outcome, the machine after
the step, the bytes left on the input channel, and the bytes written to the
output channel. -/
structure StepRes where
  out : Outcome
  state : B93
  inp : List Nat
  output : List Nat

/-- `BufRead::read_line` on a byte list: the consumed line (terminator
included) and the rest of the stream.  At end of stream it returns an empty
line, as Rust's `read_line` returning `Ok(0)` does. -/
def readLine : List Nat → List Nat × List Nat
  | [] => ([], [])
  | b :: rest =>
    if b = 10 then ([b], rest)
    else
      let r := readLine rest
      (b :: r.1, r.2)

/-- ASCII whitespace bytes recognised by `str::trim`. -/
def isWsByte (b : Nat) : Bool :=
  b = 32 ∨ b = 9 ∨ b = 10 ∨ b = 13 ∨ b = 11 ∨ b = 12

/-- `str::trim` on a byte list: strip leading and trailing whitespace. -/
def trimBytes (l : List Nat) : List Nat :=
  ((l.dropWhile isWsByte).reverse.dropWhile isWsByte).reverse

/-- ASCII decimal digit test. -/
def isDigitByte (b : Nat) : Bool := 48 ≤ b ∧ b ≤ 57

/-- Value of a (non-empty, all-digit) byte list read in base 10. -/
def digitsVal (l : List Nat) : Int :=
  l.foldl (fun acc b => acc * 10 + ((b : Int) - 48)) 0

/-- `str::parse::<i64>` on a trimmed byte list: an optional sign followed by
at least one digit, rejecting values outside the `i64` range. -/
def parseI64 (l : List Nat) : Option Int :=
  match l with
  | [] => none
  | b :: rest =>
    let digits := if b = 43 ∨ b = 45 then rest else l
    if digits.isEmpty ∨ ¬ digits.all isDigitByte then none
    else
      let v := if b = 45 then -(digitsVal digits) else digitsVal digits
      if -(2 ^ 63) ≤ v ∧ v < 2 ^ 63 then some v else none

/-- Decimal representation of an `i64`, as the ASCII bytes Rust's
`write!(wtr, "{} ", v)` emits (without the trailing space). -/
def intBytes (v : Int) : List Nat := (toString v).toList.map Char.toNat

/-- The `i64` range, `[-2^63, 2^63)`. -/
def inRange64 (v : Int) : Prop := -(2 ^ 63) ≤ v ∧ v < 2 ^ 63

instance (v : Int) : Decidable (inRange64 v) :=
  inferInstanceAs (Decidable (-(2 ^ 63) ≤ v ∧ v < 2 ^ 63))

/-- The direction table of the `?` instruction
(`0 => Up, 1 => Down, 2 => Left, 3 => Right`). -/
def dirOfRand : Fin 4 → Direction
  | 0 => .Up
  | 1 => .Down
  | 2 => .Left
  | 3 => .Right

namespace B93

/-- Shared tail of the non-halting dispatch arms: advance the pointer and
continue (`self.advance_pc(); Ok(Some(()))`). -/
def contFrom (m : B93) (inp output : List Nat) : StepRes :=
  ⟨.cont, m.advance_pc, inp, output⟩

/-- The `' '` arm: no-op. -/
def spaceArm (m : B93) (inp : List Nat) : StepRes := contFrom m inp []

/-- The `'^' 'v' '<' '>'` arms (and `'?'` after the random draw):
`self.dir = d`. -/
def dirArm (m : B93) (d : Direction) (inp : List Nat) : StepRes :=
  contFrom { m with dir := d } inp []

/-- The `'"'` arm: `self.string = true`. -/
def strArm (m : B93) (inp : List Nat) : StepRes :=
  contFrom { m with strMode := true } inp []

/-- The `'+' '-' '*'` arms: `let x = self.pop(); let y = self.pop();
self.push(x OP y)`.  When the true result does not fit in `i64` the Rust
operation overflows (debug builds panic, release builds wrap); the model
marks that case `trap` and no theorem asserts a value there. -/
def arithArm (m : B93) (f : Int → Int → Int) (inp : List Nat) : StepRes :=
  let p1 := m.pop
  let p2 := p1.2.pop
  if inRange64 (f p1.1 p2.1) then contFrom (p2.2.push (f p1.1 p2.1)) inp []
  else ⟨.trap, p2.2, inp, []⟩

/-- The `'/'` and `'%'` arms: like `arithArm` but Rust's `x / y` / `x % y`
panic — in every build profile — when `y == 0` and when
`x == i64::MIN && y == -1`, both modelled as `Outcome.trap`. -/
def divModArm (m : B93) (f : Int → Int → Int) (inp : List Nat) : StepRes :=
  let p1 := m.pop
  let p2 := p1.2.pop
  if p2.1 = 0 ∨ (p1.1 = -(2 ^ 63) ∧ p2.1 = -1) then ⟨.trap, p2.2, inp, []⟩
  else contFrom (p2.2.push (f p1.1 p2.1)) inp []

/-- The `'!'` arm: logical not. -/
def notArm (m : B93) (inp : List Nat) : StepRes :=
  let p := m.pop
  if p.1 ≠ 0 then contFrom (p.2.push 0) inp []
  else contFrom (p.2.push 1) inp []

/-- The `'_'` arm: horizontal conditional. -/
def horizArm (m : B93) (inp : List Nat) : StepRes :=
  let p := m.pop
  if p.1 ≠ 0 then contFrom { p.2 with dir := .Left } inp []
  else contFrom { p.2 with dir := .Right } inp []

/-- The `'|'` arm: vertical conditional. -/
def vertArm (m : B93) (inp : List Nat) : StepRes :=
  let p := m.pop
  if p.1 ≠ 0 then contFrom { p.2 with dir := .Up } inp []
  else contFrom { p.2 with dir := .Down } inp []

/-- The `'&'` arm: read one line, trim, parse as base-10 `i64`, push;
`InvalidNumeric` with the raw line on parse failure. -/
def inpNumArm (m : B93) (inp : List Nat) : StepRes :=
  let r := readLine inp
  match parseI64 (trimBytes r.1) with
  | some val => contFrom (m.push val) r.2 []
  | none => ⟨.err (.InvalidNumeric r.1), m, r.2, []⟩

/-- The `'~'` arm: read exactly one byte and push it; I/O error at end of
stream. -/
def inpChrArm (m : B93) (inp : List Nat) : StepRes :=
  match inp with
  | [] => ⟨.err .IOError, m, inp, []⟩
  | b :: rest => contFrom (m.push (b : Int)) rest []

/-- The `'.'` arm: `write!(wtr, "{} ", self.pop())`. -/
def outNumArm (m : B93) (inp : List Nat) : StepRes :=
  let p := m.pop
  contFrom p.2 inp (intBytes p.1 ++ [32])

/-- The `','` arm: pop, range-check `[0,127]`, write the single character. -/
def outChrArm (m : B93) (inp : List Nat) : StepRes :=
  let p := m.pop
  if p.1 < 0 ∨ 127 < p.1 then ⟨.err (.InvalidCharacter p.1), p.2, inp, []⟩
  else contFrom p.2 inp [p.1.toNat]

/-- The `'#'` arm: `self.bridge = true`. -/
def bridgeArm (m : B93) (inp : List Nat) : StepRes :=
  contFrom { m with bridge := true } inp []

/-- The `':'` arm: `self.push(self.peek())`. -/
def dupArm (m : B93) (inp : List Nat) : StepRes :=
  contFrom (m.push m.peek) inp []

/-- The `'$'` arm: `self.pop();`. -/
def dropArm (m : B93) (inp : List Nat) : StepRes :=
  contFrom (m.pop).2 inp []

/-- The `'\\'` arm: pop x, pop y, push x, push y. -/
def swapArm (m : B93) (inp : List Nat) : StepRes :=
  let p1 := m.pop
  let p2 := p1.2.pop
  contFrom ((p2.2.push p1.1).push p2.1) inp []

/-- The backquote arm: pop x, pop y, push `if x > y then 1 else 0`. -/
def gtArm (m : B93) (inp : List Nat) : StepRes :=
  let p1 := m.pop
  let p2 := p1.2.pop
  if p1.1 > p2.1 then contFrom (p2.2.push 1) inp []
  else contFrom (p2.2.push 0) inp []

/-- The `'g'` arm: pop y, pop x; push the cell at `[x][y]`, or the space
byte when out of bounds. -/
def getArm (m : B93) (inp : List Nat) : StepRes :=
  let py := m.pop
  let px := py.2.pop
  if py.1 < 0 ∨ 80 ≤ py.1 ∨ px.1 < 0 ∨ 25 ≤ px.1 then
    contFrom (px.2.push 32) inp []
  else
    contFrom (px.2.push (m.playfield px.1.toNat py.1.toNat : Int)) inp []

/-- The `'p'` arm: pop y, pop x, pop v; when in bounds write `v as u8` into
`[x][y]`, otherwise do nothing. -/
def putArm (m : B93) (inp : List Nat) : StepRes :=
  let py := m.pop
  let px := py.2.pop
  let pv := px.2.pop
  if 0 ≤ py.1 ∧ py.1 < 80 ∧ 0 ≤ px.1 ∧ px.1 < 25 then
    let wf := updPF pv.2.playfield px.1.toNat py.1.toNat (pv.1.emod 256).toNat
    contFrom { pv.2 with playfield := wf } inp []
  else
    contFrom pv.2 inp []

/-- `B93::step` (`src/b93.rs` lines 122-270), one instruction-pointer
transition.  `inp` is the pending input-channel bytes and `rand` the value
`rng.gen_range(0..4)` would produce if consulted.  The dispatch arms are the
named `...Arm` helpers above, one per arm of the Rust `match`, keyed by the
ASCII codes of the instruction bytes. -/
def step (m : B93) (inp : List Nat) (rand : Fin 4) : StepRes :=
  if m.bridge then
    contFrom { m with bridge := false } inp []
  else if m.strMode then
    if m.next_instruction = 34 then
      contFrom { m with strMode := false } inp []
    else
      contFrom (m.push (m.next_instruction : Int)) inp []
  else
    if m.next_instruction = 32 then spaceArm m inp
    else if m.next_instruction = 64 then ⟨.halt, m, inp, []⟩
    else if m.next_instruction = 94 then dirArm m .Up inp
    else if m.next_instruction = 118 then dirArm m .Down inp
    else if m.next_instruction = 60 then dirArm m .Left inp
    else if m.next_instruction = 62 then dirArm m .Right inp
    else if m.next_instruction = 63 then dirArm m (dirOfRand rand) inp
    else if m.next_instruction = 34 then strArm m inp
    else if m.next_instruction = 43 then arithArm m (· + ·) inp
    else if m.next_instruction = 45 then arithArm m (· - ·) inp
    else if m.next_instruction = 42 then arithArm m (· * ·) inp
    else if m.next_instruction = 47 then divModArm m Int.tdiv inp
    else if m.next_instruction = 37 then divModArm m Int.tmod inp
    else if m.next_instruction = 33 then notArm m inp
    else if m.next_instruction = 95 then horizArm m inp
    else if m.next_instruction = 124 then vertArm m inp
    else if m.next_instruction = 38 then inpNumArm m inp
    else if m.next_instruction = 126 then inpChrArm m inp
    else if m.next_instruction = 46 then outNumArm m inp
    else if m.next_instruction = 44 then outChrArm m inp
    else if m.next_instruction = 35 then bridgeArm m inp
    else if m.next_instruction = 58 then dupArm m inp
    else if m.next_instruction = 36 then dropArm m inp
    else if m.next_instruction = 92 then swapArm m inp
    else if m.next_instruction = 96 then gtArm m inp
    else if m.next_instruction = 103 then getArm m inp
    else if m.next_instruction = 112 then putArm m inp
    else ⟨.err (.InvalidInstruction m.next_instruction), m, inp, []⟩

end B93

/-! ### Basic projection lemmas -/

namespace B93

@[simp] lemma pop_fst (m : B93) : (m.pop).1 = m.stack.headD 0 := rfl
@[simp] lemma pop_snd_stack (m : B93) : (m.pop).2.stack = m.stack.tail := rfl
@[simp] lemma pop_snd_i (m : B93) : (m.pop).2.i = m.i := rfl
@[simp] lemma pop_snd_j (m : B93) : (m.pop).2.j = m.j := rfl
@[simp] lemma pop_snd_dir (m : B93) : (m.pop).2.dir = m.dir := rfl
@[simp] lemma pop_snd_playfield (m : B93) : (m.pop).2.playfield = m.playfield := rfl
@[simp] lemma pop_snd_bridge (m : B93) : (m.pop).2.bridge = m.bridge := rfl
@[simp] lemma pop_snd_strMode (m : B93) : (m.pop).2.strMode = m.strMode := rfl

@[simp] lemma push_stack (m : B93) (v : Int) : (m.push v).stack = v :: m.stack := rfl
@[simp] lemma push_i (m : B93) (v : Int) : (m.push v).i = m.i := rfl
@[simp] lemma push_j (m : B93) (v : Int) : (m.push v).j = m.j := rfl
@[simp] lemma push_dir (m : B93) (v : Int) : (m.push v).dir = m.dir := rfl
@[simp] lemma push_playfield (m : B93) (v : Int) : (m.push v).playfield = m.playfield := rfl

@[simp] lemma advance_pc_stack (m : B93) : m.advance_pc.stack = m.stack := by
  unfold advance_pc; split <;> rfl

@[simp] lemma advance_pc_dir (m : B93) : m.advance_pc.dir = m.dir := by
  unfold advance_pc; split <;> rfl

@[simp] lemma advance_pc_playfield (m : B93) : m.advance_pc.playfield = m.playfield := by
  unfold advance_pc; split <;> rfl

@[simp] lemma contFrom_out (s : B93) (inp o : List Nat) : (contFrom s inp o).out = .cont := rfl
@[simp] lemma contFrom_state (s : B93) (inp o : List Nat) :
    (contFrom s inp o).state = s.advance_pc := rfl
@[simp] lemma contFrom_inp (s : B93) (inp o : List Nat) : (contFrom s inp o).inp = inp := rfl
@[simp] lemma contFrom_output (s : B93) (inp o : List Nat) : (contFrom s inp o).output = o := rfl

/-- `advance_pc` keeps the pointer inside the 25 × 80 grid. -/
lemma advance_pc_bounds (s : B93) (h1 : s.i < 25) (h2 : s.j < 80) :
    s.advance_pc.i < 25 ∧ s.advance_pc.j < 80 := by
  unfold advance_pc
  split <;> simp <;> first | omega | (split <;> omega)

lemma contFrom_bounds (s : B93) (inp o : List Nat) (h1 : s.i < 25) (h2 : s.j < 80) :
    (contFrom s inp o).state.i < 25 ∧ (contFrom s inp o).state.j < 80 := by
  simpa using advance_pc_bounds s h1 h2

end B93

/-! ### Equation lemmas: one per arm of the `step` dispatch -/

namespace B93

lemma step_eq_bridge (m : B93) (inp : List Nat) (rand : Fin 4)
    (hb : m.bridge = true) :
    m.step inp rand = contFrom { m with bridge := false } inp [] := by
  simp [step, hb]

lemma step_eq_strDelim (m : B93) (inp : List Nat) (rand : Fin 4)
    (hb : m.bridge = false) (hs : m.strMode = true)
    (hc : m.next_instruction = 34) :
    m.step inp rand = contFrom { m with strMode := false } inp [] := by
  simp [step, hb, hs, hc]

lemma step_eq_strPush (m : B93) (inp : List Nat) (rand : Fin 4)
    (hb : m.bridge = false) (hs : m.strMode = true)
    (hc : m.next_instruction ≠ 34) :
    m.step inp rand = contFrom (m.push (m.next_instruction : Int)) inp [] := by
  simp [step, hb, hs, hc]

lemma step_eq_space (m : B93) (inp : List Nat) (rand : Fin 4)
    (hb : m.bridge = false) (hs : m.strMode = false)
    (hc : m.next_instruction = 32) :
    m.step inp rand = spaceArm m inp := by
  simp [step, hb, hs, hc]

lemma step_eq_halt (m : B93) (inp : List Nat) (rand : Fin 4)
    (hb : m.bridge = false) (hs : m.strMode = false)
    (hc : m.next_instruction = 64) :
    m.step inp rand = ⟨.halt, m, inp, []⟩ := by
  simp [step, hb, hs, hc]

lemma step_eq_up (m : B93) (inp : List Nat) (rand : Fin 4)
    (hb : m.bridge = false) (hs : m.strMode = false)
    (hc : m.next_instruction = 94) :
    m.step inp rand = dirArm m .Up inp := by
  simp [step, hb, hs, hc]

lemma step_eq_down (m : B93) (inp : List Nat) (rand : Fin 4)
    (hb : m.bridge = false) (hs : m.strMode = false)
    (hc : m.next_instruction = 118) :
    m.step inp rand = dirArm m .Down inp := by
  simp [step, hb, hs, hc]

lemma step_eq_left (m : B93) (inp : List Nat) (rand : Fin 4)
    (hb : m.bridge = false) (hs : m.strMode = false)
    (hc : m.next_instruction = 60) :
    m.step inp rand = dirArm m .Left inp := by
  simp [step, hb, hs, hc]

lemma step_eq_right (m : B93) (inp : List Nat) (rand : Fin 4)
    (hb : m.bridge = false) (hs : m.strMode = false)
    (hc : m.next_instruction = 62) :
    m.step inp rand = dirArm m .Right inp := by
  simp [step, hb, hs, hc]

lemma step_eq_rand (m : B93) (inp : List Nat) (rand : Fin 4)
    (hb : m.bridge = false) (hs : m.strMode = false)
    (hc : m.next_instruction = 63) :
    m.step inp rand = dirArm m (dirOfRand rand) inp := by
  simp [step, hb, hs, hc]

lemma step_eq_quote (m : B93) (inp : List Nat) (rand : Fin 4)
    (hb : m.bridge = false) (hs : m.strMode = false)
    (hc : m.next_instruction = 34) :
    m.step inp rand = strArm m inp := by
  simp [step, hb, hs, hc]

lemma step_eq_add (m : B93) (inp : List Nat) (rand : Fin 4)
    (hb : m.bridge = false) (hs : m.strMode = false)
    (hc : m.next_instruction = 43) :
    m.step inp rand = arithArm m (· + ·) inp := by
  simp [step, hb, hs, hc]

lemma step_eq_sub (m : B93) (inp : List Nat) (rand : Fin 4)
    (hb : m.bridge = false) (hs : m.strMode = false)
    (hc : m.next_instruction = 45) :
    m.step inp rand = arithArm m (· - ·) inp := by
  simp [step, hb, hs, hc]

lemma step_eq_mul (m : B93) (inp : List Nat) (rand : Fin 4)
    (hb : m.bridge = false) (hs : m.strMode = false)
    (hc : m.next_instruction = 42) :
    m.step inp rand = arithArm m (· * ·) inp := by
  simp [step, hb, hs, hc]

lemma step_eq_div (m : B93) (inp : List Nat) (rand : Fin 4)
    (hb : m.bridge = false) (hs : m.strMode = false)
    (hc : m.next_instruction = 47) :
    m.step inp rand = divModArm m Int.tdiv inp := by
  simp [step, hb, hs, hc]

lemma step_eq_mod (m : B93) (inp : List Nat) (rand : Fin 4)
    (hb : m.bridge = false) (hs : m.strMode = false)
    (hc : m.next_instruction = 37) :
    m.step inp rand = divModArm m Int.tmod inp := by
  simp [step, hb, hs, hc]

lemma step_eq_not (m : B93) (inp : List Nat) (rand : Fin 4)
    (hb : m.bridge = false) (hs : m.strMode = false)
    (hc : m.next_instruction = 33) :
    m.step inp rand = notArm m inp := by
  simp [step, hb, hs, hc]

lemma step_eq_horiz (m : B93) (inp : List Nat) (rand : Fin 4)
    (hb : m.bridge = false) (hs : m.strMode = false)
    (hc : m.next_instruction = 95) :
    m.step inp rand = horizArm m inp := by
  simp [step, hb, hs, hc]

lemma step_eq_vert (m : B93) (inp : List Nat) (rand : Fin 4)
    (hb : m.bridge = false) (hs : m.strMode = false)
    (hc : m.next_instruction = 124) :
    m.step inp rand = vertArm m inp := by
  simp [step, hb, hs, hc]

lemma step_eq_inpNum (m : B93) (inp : List Nat) (rand : Fin 4)
    (hb : m.bridge = false) (hs : m.strMode = false)
    (hc : m.next_instruction = 38) :
    m.step inp rand = inpNumArm m inp := by
  simp [step, hb, hs, hc]

lemma step_eq_inpChr (m : B93) (inp : List Nat) (rand : Fin 4)
    (hb : m.bridge = false) (hs : m.strMode = false)
    (hc : m.next_instruction = 126) :
    m.step inp rand = inpChrArm m inp := by
  simp [step, hb, hs, hc]

lemma step_eq_outNum (m : B93) (inp : List Nat) (rand : Fin 4)
    (hb : m.bridge = false) (hs : m.strMode = false)
    (hc : m.next_instruction = 46) :
    m.step inp rand = outNumArm m inp := by
  simp [step, hb, hs, hc]

lemma step_eq_outChr (m : B93) (inp : List Nat) (rand : Fin 4)
    (hb : m.bridge = false) (hs : m.strMode = false)
    (hc : m.next_instruction = 44) :
    m.step inp rand = outChrArm m inp := by
  simp [step, hb, hs, hc]

lemma step_eq_setBridge (m : B93) (inp : List Nat) (rand : Fin 4)
    (hb : m.bridge = false) (hs : m.strMode = false)
    (hc : m.next_instruction = 35) :
    m.step inp rand = bridgeArm m inp := by
  simp [step, hb, hs, hc]

lemma step_eq_dup (m : B93) (inp : List Nat) (rand : Fin 4)
    (hb : m.bridge = false) (hs : m.strMode = false)
    (hc : m.next_instruction = 58) :
    m.step inp rand = dupArm m inp := by
  simp [step, hb, hs, hc]

lemma step_eq_drop (m : B93) (inp : List Nat) (rand : Fin 4)
    (hb : m.bridge = false) (hs : m.strMode = false)
    (hc : m.next_instruction = 36) :
    m.step inp rand = dropArm m inp := by
  simp [step, hb, hs, hc]

lemma step_eq_swap (m : B93) (inp : List Nat) (rand : Fin 4)
    (hb : m.bridge = false) (hs : m.strMode = false)
    (hc : m.next_instruction = 92) :
    m.step inp rand = swapArm m inp := by
  simp [step, hb, hs, hc]

lemma step_eq_gt (m : B93) (inp : List Nat) (rand : Fin 4)
    (hb : m.bridge = false) (hs : m.strMode = false)
    (hc : m.next_instruction = 96) :
    m.step inp rand = gtArm m inp := by
  simp [step, hb, hs, hc]

lemma step_eq_get (m : B93) (inp : List Nat) (rand : Fin 4)
    (hb : m.bridge = false) (hs : m.strMode = false)
    (hc : m.next_instruction = 103) :
    m.step inp rand = getArm m inp := by
  simp [step, hb, hs, hc]

lemma step_eq_put (m : B93) (inp : List Nat) (rand : Fin 4)
    (hb : m.bridge = false) (hs : m.strMode = false)
    (hc : m.next_instruction = 112) :
    m.step inp rand = putArm m inp := by
  simp [step, hb, hs, hc]

/-- The instruction bytes the dispatch recognises. -/
def knownBytes : List Nat :=
  [32, 64, 94, 118, 60, 62, 63, 34, 43, 45, 42, 47, 37, 33, 95, 124, 38,
   126, 46, 44, 35, 58, 36, 92, 96, 103, 112]

lemma step_eq_invalid (m : B93) (inp : List Nat) (rand : Fin 4)
    (hb : m.bridge = false) (hs : m.strMode = false)
    (hc : m.next_instruction ∉ knownBytes) :
    m.step inp rand = ⟨.err (.InvalidInstruction m.next_instruction), m, inp, []⟩ := by
  simp only [knownBytes, List.mem_cons, List.mem_singleton, not_or] at hc
  obtain ⟨n1, n2, n3, n4, n5, n6, n7, n8, n9, n10, n11, n12, n13, n14, n15,
    n16, n17, n18, n19, n20, n21, n22, n23, n24, n25, n26, n27⟩ := hc
  simp [step, hb, hs, n1, n2, n3, n4, n5, n6, n7, n8, n9, n10, n11, n12, n13,
    n14, n15, n16, n17, n18, n19, n20, n21, n22, n23, n24, n25, n26, n27]

end B93

/-! ### The master frame lemma: pointer bounds and fault frames -/

namespace B93

/-- The frame facts one `step` guarantees relative to the starting state `m`:
(1) the pointer stays inside the 25 × 80 grid, and (2) on every non-`cont`
outcome (halt, error, trap) the pointer and direction are untouched. -/
def FrameOK (m : B93) (r : StepRes) : Prop :=
  (m.i < 25 → m.j < 80 → r.state.i < 25 ∧ r.state.j < 80) ∧
  (r.out ≠ .cont → r.state.i = m.i ∧ r.state.j = m.j ∧ r.state.dir = m.dir)

lemma frame_contFrom (m s : B93) (inp o : List Nat)
    (hi : s.i = m.i) (hj : s.j = m.j) :
    FrameOK m (contFrom s inp o) := by
  constructor
  · intro h1 h2
    exact contFrom_bounds s inp o (hi ▸ h1) (hj ▸ h2)
  · intro hne
    exact absurd rfl hne

lemma frame_still (m s : B93) (o : Outcome) (inp ob : List Nat)
    (hi : s.i = m.i) (hj : s.j = m.j) (hd : s.dir = m.dir) :
    FrameOK m (⟨o, s, inp, ob⟩ : StepRes) := by
  exact ⟨fun h1 h2 => ⟨hi ▸ h1, hj ▸ h2⟩, fun _ => ⟨hi, hj, hd⟩⟩

lemma frame_spaceArm (m : B93) (inp : List Nat) : FrameOK m (spaceArm m inp) :=
  frame_contFrom m m inp [] rfl rfl

lemma frame_dirArm (m : B93) (d : Direction) (inp : List Nat) :
    FrameOK m (dirArm m d inp) :=
  frame_contFrom m _ inp [] rfl rfl

lemma frame_strArm (m : B93) (inp : List Nat) : FrameOK m (strArm m inp) :=
  frame_contFrom m _ inp [] rfl rfl

lemma frame_arithArm (m : B93) (f : Int → Int → Int) (inp : List Nat) :
    FrameOK m (arithArm m f inp) := by
  unfold arithArm
  dsimp only
  split
  · exact frame_contFrom m _ inp [] rfl rfl
  · exact frame_still m _ _ inp [] rfl rfl rfl

lemma frame_divModArm (m : B93) (f : Int → Int → Int) (inp : List Nat) :
    FrameOK m (divModArm m f inp) := by
  unfold divModArm
  dsimp only
  split
  · exact frame_still m _ _ inp [] rfl rfl rfl
  · exact frame_contFrom m _ inp [] rfl rfl

lemma frame_notArm (m : B93) (inp : List Nat) : FrameOK m (notArm m inp) := by
  unfold notArm
  dsimp only
  split
  · exact frame_contFrom m _ inp [] rfl rfl
  · exact frame_contFrom m _ inp [] rfl rfl

lemma frame_horizArm (m : B93) (inp : List Nat) : FrameOK m (horizArm m inp) := by
  unfold horizArm
  dsimp only
  split
  · exact frame_contFrom m _ inp [] rfl rfl
  · exact frame_contFrom m _ inp [] rfl rfl

lemma frame_vertArm (m : B93) (inp : List Nat) : FrameOK m (vertArm m inp) := by
  unfold vertArm
  dsimp only
  split
  · exact frame_contFrom m _ inp [] rfl rfl
  · exact frame_contFrom m _ inp [] rfl rfl

lemma frame_inpNumArm (m : B93) (inp : List Nat) : FrameOK m (inpNumArm m inp) := by
  unfold inpNumArm
  dsimp only
  split
  · exact frame_contFrom m _ _ [] rfl rfl
  · exact frame_still m m _ _ [] rfl rfl rfl

lemma frame_inpChrArm (m : B93) (inp : List Nat) : FrameOK m (inpChrArm m inp) := by
  unfold inpChrArm
  split
  · exact frame_still m m _ _ [] rfl rfl rfl
  · exact frame_contFrom m _ _ [] rfl rfl

lemma frame_outNumArm (m : B93) (inp : List Nat) : FrameOK m (outNumArm m inp) :=
  frame_contFrom m _ inp _ rfl rfl

lemma frame_outChrArm (m : B93) (inp : List Nat) : FrameOK m (outChrArm m inp) := by
  unfold outChrArm
  dsimp only
  split
  · exact frame_still m _ _ inp [] rfl rfl rfl
  · exact frame_contFrom m _ inp _ rfl rfl

lemma frame_bridgeArm (m : B93) (inp : List Nat) : FrameOK m (bridgeArm m inp) :=
  frame_contFrom m _ inp [] rfl rfl

lemma frame_dupArm (m : B93) (inp : List Nat) : FrameOK m (dupArm m inp) :=
  frame_contFrom m _ inp [] rfl rfl

lemma frame_dropArm (m : B93) (inp : List Nat) : FrameOK m (dropArm m inp) :=
  frame_contFrom m _ inp [] rfl rfl

lemma frame_swapArm (m : B93) (inp : List Nat) : FrameOK m (swapArm m inp) :=
  frame_contFrom m _ inp [] rfl rfl

lemma frame_gtArm (m : B93) (inp : List Nat) : FrameOK m (gtArm m inp) := by
  unfold gtArm
  dsimp only
  split
  · exact frame_contFrom m _ inp [] rfl rfl
  · exact frame_contFrom m _ inp [] rfl rfl

lemma frame_getArm (m : B93) (inp : List Nat) : FrameOK m (getArm m inp) := by
  unfold getArm
  dsimp only
  split
  · exact frame_contFrom m _ inp [] rfl rfl
  · exact frame_contFrom m _ inp [] rfl rfl

lemma frame_putArm (m : B93) (inp : List Nat) : FrameOK m (putArm m inp) := by
  unfold putArm
  dsimp only
  split
  · exact frame_contFrom m _ inp [] rfl rfl
  · exact frame_contFrom m _ inp [] rfl rfl

/-- Every single step satisfies the frame facts, whatever the instruction. -/
lemma step_frame (m : B93) (inp : List Nat) (rand : Fin 4) :
    FrameOK m (m.step inp rand) := by
  by_cases hb : m.bridge = true
  · rw [step_eq_bridge m inp rand hb]
    exact frame_contFrom m _ inp [] rfl rfl
  rw [Bool.not_eq_true] at hb
  by_cases hs : m.strMode = true
  · by_cases hq : m.next_instruction = 34
    · rw [step_eq_strDelim m inp rand hb hs hq]
      exact frame_contFrom m _ inp [] rfl rfl
    · rw [step_eq_strPush m inp rand hb hs hq]
      exact frame_contFrom m _ inp [] rfl rfl
  rw [Bool.not_eq_true] at hs
  by_cases h1 : m.next_instruction = 32
  · rw [step_eq_space m inp rand hb hs h1]; exact frame_spaceArm m inp
  by_cases h2 : m.next_instruction = 64
  · rw [step_eq_halt m inp rand hb hs h2]
    exact frame_still m m _ inp [] rfl rfl rfl
  by_cases h3 : m.next_instruction = 94
  · rw [step_eq_up m inp rand hb hs h3]; exact frame_dirArm m _ inp
  by_cases h4 : m.next_instruction = 118
  · rw [step_eq_down m inp rand hb hs h4]; exact frame_dirArm m _ inp
  by_cases h5 : m.next_instruction = 60
  · rw [step_eq_left m inp rand hb hs h5]; exact frame_dirArm m _ inp
  by_cases h6 : m.next_instruction = 62
  · rw [step_eq_right m inp rand hb hs h6]; exact frame_dirArm m _ inp
  by_cases h7 : m.next_instruction = 63
  · rw [step_eq_rand m inp rand hb hs h7]; exact frame_dirArm m _ inp
  by_cases h8 : m.next_instruction = 34
  · rw [step_eq_quote m inp rand hb hs h8]; exact frame_strArm m inp
  by_cases h9 : m.next_instruction = 43
  · rw [step_eq_add m inp rand hb hs h9]; exact frame_arithArm m _ inp
  by_cases h10 : m.next_instruction = 45
  · rw [step_eq_sub m inp rand hb hs h10]; exact frame_arithArm m _ inp
  by_cases h11 : m.next_instruction = 42
  · rw [step_eq_mul m inp rand hb hs h11]; exact frame_arithArm m _ inp
  by_cases h12 : m.next_instruction = 47
  · rw [step_eq_div m inp rand hb hs h12]; exact frame_divModArm m _ inp
  by_cases h13 : m.next_instruction = 37
  · rw [step_eq_mod m inp rand hb hs h13]; exact frame_divModArm m _ inp
  by_cases h14 : m.next_instruction = 33
  · rw [step_eq_not m inp rand hb hs h14]; exact frame_notArm m inp
  by_cases h15 : m.next_instruction = 95
  · rw [step_eq_horiz m inp rand hb hs h15]; exact frame_horizArm m inp
  by_cases h16 : m.next_instruction = 124
  · rw [step_eq_vert m inp rand hb hs h16]; exact frame_vertArm m inp
  by_cases h17 : m.next_instruction = 38
  · rw [step_eq_inpNum m inp rand hb hs h17]; exact frame_inpNumArm m inp
  by_cases h18 : m.next_instruction = 126
  · rw [step_eq_inpChr m inp rand hb hs h18]; exact frame_inpChrArm m inp
  by_cases h19 : m.next_instruction = 46
  · rw [step_eq_outNum m inp rand hb hs h19]; exact frame_outNumArm m inp
  by_cases h20 : m.next_instruction = 44
  · rw [step_eq_outChr m inp rand hb hs h20]; exact frame_outChrArm m inp
  by_cases h21 : m.next_instruction = 35
  · rw [step_eq_setBridge m inp rand hb hs h21]; exact frame_bridgeArm m inp
  by_cases h22 : m.next_instruction = 58
  · rw [step_eq_dup m inp rand hb hs h22]; exact frame_dupArm m inp
  by_cases h23 : m.next_instruction = 36
  · rw [step_eq_drop m inp rand hb hs h23]; exact frame_dropArm m inp
  by_cases h24 : m.next_instruction = 92
  · rw [step_eq_swap m inp rand hb hs h24]; exact frame_swapArm m inp
  by_cases h25 : m.next_instruction = 96
  · rw [step_eq_gt m inp rand hb hs h25]; exact frame_gtArm m inp
  by_cases h26 : m.next_instruction = 103
  · rw [step_eq_get m inp rand hb hs h26]; exact frame_getArm m inp
  by_cases h27 : m.next_instruction = 112
  · rw [step_eq_put m inp rand hb hs h27]; exact frame_putArm m inp
  rw [step_eq_invalid m inp rand hb hs (by
    simp [knownBytes, h1, h2, h3, h4, h5, h6, h7, h8, h9, h10, h11, h12, h13,
      h14, h15, h16, h17, h18, h19, h20, h21, h22, h23, h24, h25, h26, h27])]
  exact frame_still m m _ inp [] rfl rfl rfl

end B93

/-! ### Reachable engine states -/

/-- Engine states reachable from a freshly constructed engine (`B93::new`,
hence also anything `from_stream` produces) by repeated `step` calls, under
any channel contents and random draws. -/
inductive Reachable : B93 → Prop where
  | base (pf : Playfield) : Reachable (B93.new pf)
  | next (m : B93) (inp : List Nat) (rand : Fin 4) :
      Reachable m → Reachable ((m.step inp rand).state)

lemma reachable_bounds (m : B93) (h : Reachable m) : m.i < 25 ∧ m.j < 80 := by
  induction h with
  | base pf => exact ⟨by simp [B93.new], by simp [B93.new]⟩
  | next m' inp rand _ ih => exact (B93.step_frame m' inp rand).1 ih.1 ih.2

/-! ### Concrete probe states and programs used by the claims -/

/-- A machine about to execute `-` with 5 pushed first and 3 pushed second
(stack top 3). -/
def subProbe : B93 := { B93.new (updPF spacePF 0 0 45) with stack := [3, 5] }

/-- The program `+.` about to run with 3 pushed first and 4 pushed second
(stack top 4). -/
def addDotProg : B93 :=
  { B93.new (updPF (updPF spacePF 0 0 43) 0 1 46) with stack := [4, 3] }

/-- A machine about to execute `$` on an empty stack. -/
def dropOnEmpty : B93 := B93.new (updPF spacePF 0 0 36)

/-- A machine about to execute `.` on an empty stack. -/
def dotOnEmpty : B93 := B93.new (updPF spacePF 0 0 46)

/-- A machine about to execute `/` with 2 pushed first and -7 pushed second
(stack top -7). -/
def divTruncProbe : B93 := { B93.new (updPF spacePF 0 0 47) with stack := [-7, 2] }

/-- The program `pg` about to run with stack (top first) 0, 0, 65:
`p` writes 65 at (0,0), then `g` (popping defaults 0, 0 from the now-empty
stack) reads (0,0) back. -/
def pgProg : B93 :=
  { B93.new (updPF (updPF spacePF 0 0 112) 0 1 103) with stack := [0, 0, 65] }

/-- A machine about to execute `,` with 200 on the stack. -/
def outChrProbe : B93 := { B93.new (updPF spacePF 0 0 44) with stack := [200] }

/-- The engine loaded from the one-byte program `@`. -/
def atProg : B93 := B93.new (updPF spacePF 0 0 64)

/-! ### Claim theorems -/

/-- C1: the claim says `from_stream` fails with `PlayfieldTooTall` when the
stream has more than 25 lines and with `PlayfieldTooWide` when a line
exceeds 80 columns.  The code returns the two variants SWAPPED: a stream of
25 newlines followed by one more byte (26 lines) yields `PlayfieldTooWide`,
and a single 81-byte line yields `PlayfieldTooTall`. -/
theorem c1_loader_error_variants_swapped :
    fromStream (List.replicate 25 10 ++ [120]) = .error .PlayfieldTooWide ∧
    fromStream (List.replicate 81 120) = .error .PlayfieldTooTall :=
  ⟨rfl, rfl⟩

/-- C3: the claim says a `\r` immediately followed by `\n` counts as one
terminator, and the k-th line lands in row k.  But the loader's `maybe_crlf`
flag is never cleared by ordinary bytes: in the stream `\r x \n y` the `\n`
(which does NOT immediately follow the `\r`) is swallowed as if it closed a
`\r\n` pair, so `y` is placed at row 1, column 1 — the claim requires it at
row 2, column 0 (which stays a space). -/
theorem c3_crlf_flag_not_cleared :
    (fromStream [13, 120, 10, 121]).toOption.map
        (fun m => (m.playfield 1 0, m.playfield 1 1, m.playfield 2 0))
      = some (120, 121, 32) :=
  rfl

/-- C5: every reachable state keeps the instruction pointer inside
[0,25) × [0,80), and `advance_pc` wraps toroidally at each of the four
edges: row 0 moving Up lands on row 24, column 0 moving Left lands on
column 79, row 24 moving Down lands on row 0, column 79 moving Right lands
on column 0. -/
theorem c5_pointer_bounds_and_wraparound :
    (∀ m : B93, Reachable m → m.i < 25 ∧ m.j < 80) ∧
    (∀ m : B93, m.dir = .Up → m.i = 0 → m.advance_pc.i = 24) ∧
    (∀ m : B93, m.dir = .Left → m.j = 0 → m.advance_pc.j = 79) ∧
    (∀ m : B93, m.dir = .Down → m.i = 24 → m.advance_pc.i = 0) ∧
    (∀ m : B93, m.dir = .Right → m.j = 79 → m.advance_pc.j = 0) := by
  refine ⟨reachable_bounds, ?_, ?_, ?_, ?_⟩ <;>
    (intro m hd hc; simp [B93.advance_pc, hd, hc])

theorem c5_witness :
    ((B93.new spacePF).i < 25 ∧ (B93.new spacePF).j < 80) ∧
    ({ B93.new spacePF with dir := Direction.Up }).advance_pc.i = 24 ∧
    ({ B93.new spacePF with dir := Direction.Left }).advance_pc.j = 79 ∧
    ({ B93.new spacePF with dir := Direction.Down, i := 24 }).advance_pc.i = 0 ∧
    ({ B93.new spacePF with dir := Direction.Right, j := 79 }).advance_pc.j = 0 :=
  ⟨c5_pointer_bounds_and_wraparound.1 _ (Reachable.base spacePF),
   c5_pointer_bounds_and_wraparound.2.1 _ rfl rfl,
   c5_pointer_bounds_and_wraparound.2.2.1 _ rfl rfl,
   c5_pointer_bounds_and_wraparound.2.2.2.1 _ rfl rfl,
   c5_pointer_bounds_and_wraparound.2.2.2.2 _ rfl rfl⟩

/-- C6: popping from an empty stack yields the defined default 0 and never
faults; `$` on an empty stack continues normally leaving the stack empty,
and `.` on an empty stack writes the bytes `"0 "` to the output channel. -/
theorem c6_pop_empty_defaults_to_zero :
    (∀ m : B93, m.stack = [] → m.pop = (0, m)) ∧
    ((dropOnEmpty.step [] 0).out = .cont ∧
     (dropOnEmpty.step [] 0).state.stack = []) ∧
    ((dotOnEmpty.step [] 0).out = .cont ∧
     (dotOnEmpty.step [] 0).output = [48, 32]) := by
  refine ⟨?_, ⟨rfl, rfl⟩, ⟨rfl, by decide⟩⟩
  intro m h
  obtain ⟨pf, stk, i, j, d, br, sm⟩ := m
  simp only at h
  subst h
  rfl

theorem c6_witness : dropOnEmpty.pop = (0, dropOnEmpty) :=
  c6_pop_empty_defaults_to_zero.1 dropOnEmpty rfl

/-- C9: executing `@` with the bridge and string flags clear returns the
halt outcome with no side effects at all: the whole machine state is
unchanged, no input is consumed and no output is written. -/
theorem c9_halt_no_side_effects (m : B93) (inp : List Nat) (rand : Fin 4)
    (hb : m.bridge = false) (hs : m.strMode = false)
    (hc : m.next_instruction = 64) :
    m.step inp rand = ⟨.halt, m, inp, []⟩ :=
  B93.step_eq_halt m inp rand hb hs hc

theorem c9_witness :
    fromStream [64] = .ok atProg ∧
    atProg.step [] 0 = ⟨.halt, atProg, [], []⟩ :=
  ⟨rfl, c9_halt_no_side_effects atProg [] 0 rfl rfl rfl⟩

/-- C2 counterexample: the claim says an arithmetic instruction combines its
operands as *second-popped OP first-popped*.  Pushing 5 then 3 and executing
`-` would then leave 5 - 3 = 2; the code instead computes
*first-popped OP second-popped* and leaves 3 - 5 = -2. -/
theorem c2_counterexample :
    (subProbe.step [] 0).state.stack = [-2] ∧
    ([-2] : List Int) ≠ [5 - 3] :=
  ⟨rfl, by decide⟩

/-- C2 (amended): each binary arithmetic instruction pops twice in immediate
sequence — x first (the original top of stack), then y — and pushes
x OP y, i.e. *first-popped OP second-popped*, whenever the result is
representable in `i64` (for `/` and `%`: the divisor y is nonzero and the
operands are not `i64::MIN` and `-1` — outside those regions the B93 step
faults or is profile-dependent rather than pushing a value); and the program
`+.` with 3 pushed first and 4 pushed second continues and then writes
`"7 "`. -/
theorem c2_arith_pop_order (m : B93) (inp : List Nat) (rand : Fin 4)
    (x y : Int) (rest : List Int)
    (hb : m.bridge = false) (hs : m.strMode = false)
    (hst : m.stack = x :: y :: rest) :
    (m.next_instruction = 43 → inRange64 (x + y) →
      (m.step inp rand).out = .cont ∧
      (m.step inp rand).state.stack = (x + y) :: rest) ∧
    (m.next_instruction = 45 → inRange64 (x - y) →
      (m.step inp rand).out = .cont ∧
      (m.step inp rand).state.stack = (x - y) :: rest) ∧
    (m.next_instruction = 42 → inRange64 (x * y) →
      (m.step inp rand).out = .cont ∧
      (m.step inp rand).state.stack = (x * y) :: rest) ∧
    (m.next_instruction = 47 → y ≠ 0 → ¬ (x = -(2 ^ 63) ∧ y = -1) →
      (m.step inp rand).out = .cont ∧
      (m.step inp rand).state.stack = Int.tdiv x y :: rest) ∧
    (m.next_instruction = 37 → y ≠ 0 → ¬ (x = -(2 ^ 63) ∧ y = -1) →
      (m.step inp rand).out = .cont ∧
      (m.step inp rand).state.stack = Int.tmod x y :: rest) ∧
    ((addDotProg.step [] 0).out = .cont ∧
     ((addDotProg.step [] 0).state.step [] 0).output = [55, 32]) := by
  refine ⟨?_, ?_, ?_, ?_, ?_, rfl, by decide⟩
  · intro hc hr
    rw [B93.step_eq_add m inp rand hb hs hc]
    simp [B93.arithArm, hst, hr]
  · intro hc hr
    rw [B93.step_eq_sub m inp rand hb hs hc]
    simp [B93.arithArm, hst, hr]
  · intro hc hr
    rw [B93.step_eq_mul m inp rand hb hs hc]
    simp [B93.arithArm, hst, hr]
  · intro hc hy hmin
    rw [B93.step_eq_div m inp rand hb hs hc]
    unfold B93.divModArm
    dsimp only
    have hcc : ¬ (m.pop.2.pop.1 = 0 ∨ (m.pop.1 = -(2 ^ 63) ∧ m.pop.2.pop.1 = -1)) := by
      simp only [B93.pop_fst, B93.pop_snd_stack, hst, List.headD_cons, List.tail_cons]
      rintro (h | h)
      · exact hy h
      · exact hmin h
    rw [if_neg hcc]
    simp [hst]
  · intro hc hy hmin
    rw [B93.step_eq_mod m inp rand hb hs hc]
    unfold B93.divModArm
    dsimp only
    have hcc : ¬ (m.pop.2.pop.1 = 0 ∨ (m.pop.1 = -(2 ^ 63) ∧ m.pop.2.pop.1 = -1)) := by
      simp only [B93.pop_fst, B93.pop_snd_stack, hst, List.headD_cons, List.tail_cons]
      rintro (h | h)
      · exact hy h
      · exact hmin h
    rw [if_neg hcc]
    simp [hst]

theorem c2_witness :
    (subProbe.step [] 0).out = .cont ∧
    (subProbe.step [] 0).state.stack = [-2] :=
  (c2_arith_pop_order subProbe [] 0 3 5 [] rfl rfl rfl).2.1 rfl (by decide)

/-- C4: `:` pushes a copy of the value at the BOTTOM of the stack (its
oldest element, `getLastD` of our top-first list), 0 when the stack is
empty, and leaves every existing element in place. -/
theorem c4_dup_pushes_bottom (m : B93) (inp : List Nat) (rand : Fin 4)
    (hb : m.bridge = false) (hs : m.strMode = false)
    (hc : m.next_instruction = 58) :
    (m.step inp rand).out = .cont ∧
    (m.step inp rand).state.stack = m.stack.getLastD 0 :: m.stack ∧
    (m.stack = [] → (m.step inp rand).state.stack = [0]) := by
  rw [B93.step_eq_dup m inp rand hb hs hc]
  refine ⟨rfl, ?_, ?_⟩
  · simp [B93.dupArm, B93.peek]
  · intro h
    simp [B93.dupArm, B93.peek, h]

/-- A machine about to execute `:` with 1, 2, 3 pushed in that order
(stack top 3, bottom 1). -/
def dupProbe : B93 := { B93.new (updPF spacePF 0 0 58) with stack := [3, 2, 1] }

theorem c4_witness :
    (dupProbe.step [] 0).out = .cont ∧
    (dupProbe.step [] 0).state.stack = [1, 3, 2, 1] := by
  have h := c4_dup_pushes_bottom dupProbe [] 0 rfl rfl rfl
  exact ⟨h.1, h.2.1⟩

/-- C7: `/` and `%` use truncating integer division (`Int.tdiv`/`Int.tmod`;
the concrete probe divides -7 by 2 and leaves -3, truncation toward zero),
and whenever the host operation would panic — a zero divisor, or the
overflow pair `i64::MIN` with `-1` — the step produces the trap outcome
instead of pushing any value or writing any output. -/
theorem c7_divmod_truncation_and_zero_trap (m : B93) (inp : List Nat)
    (rand : Fin 4) (x y : Int) (rest : List Int)
    (hb : m.bridge = false) (hs : m.strMode = false)
    (hst : m.stack = x :: y :: rest) :
    ((m.next_instruction = 47 ∨ m.next_instruction = 37) →
      (y = 0 ∨ (x = -(2 ^ 63) ∧ y = -1)) →
      (m.step inp rand).out = .trap ∧ (m.step inp rand).output = []) ∧
    (m.next_instruction = 47 → y ≠ 0 → ¬ (x = -(2 ^ 63) ∧ y = -1) →
      (m.step inp rand).state.stack = Int.tdiv x y :: rest) ∧
    (m.next_instruction = 37 → y ≠ 0 → ¬ (x = -(2 ^ 63) ∧ y = -1) →
      (m.step inp rand).state.stack = Int.tmod x y :: rest) ∧
    (divTruncProbe.step [] 0).state.stack = [-3] := by
  refine ⟨?_, ?_, ?_, rfl⟩
  · rintro (hc | hc) hy
    · rw [B93.step_eq_div m inp rand hb hs hc]
      unfold B93.divModArm
      dsimp only
      have hcc : m.pop.2.pop.1 = 0 ∨ (m.pop.1 = -(2 ^ 63) ∧ m.pop.2.pop.1 = -1) := by
        simp only [B93.pop_fst, B93.pop_snd_stack, hst, List.headD_cons, List.tail_cons]
        exact hy
      rw [if_pos hcc]
      exact ⟨rfl, rfl⟩
    · rw [B93.step_eq_mod m inp rand hb hs hc]
      unfold B93.divModArm
      dsimp only
      have hcc : m.pop.2.pop.1 = 0 ∨ (m.pop.1 = -(2 ^ 63) ∧ m.pop.2.pop.1 = -1) := by
        simp only [B93.pop_fst, B93.pop_snd_stack, hst, List.headD_cons, List.tail_cons]
        exact hy
      rw [if_pos hcc]
      exact ⟨rfl, rfl⟩
  · intro hc hy hmin
    rw [B93.step_eq_div m inp rand hb hs hc]
    unfold B93.divModArm
    dsimp only
    have hcc : ¬ (m.pop.2.pop.1 = 0 ∨ (m.pop.1 = -(2 ^ 63) ∧ m.pop.2.pop.1 = -1)) := by
      simp only [B93.pop_fst, B93.pop_snd_stack, hst, List.headD_cons, List.tail_cons]
      rintro (h | h)
      · exact hy h
      · exact hmin h
    rw [if_neg hcc]
    simp [hst]
  · intro hc hy hmin
    rw [B93.step_eq_mod m inp rand hb hs hc]
    unfold B93.divModArm
    dsimp only
    have hcc : ¬ (m.pop.2.pop.1 = 0 ∨ (m.pop.1 = -(2 ^ 63) ∧ m.pop.2.pop.1 = -1)) := by
      simp only [B93.pop_fst, B93.pop_snd_stack, hst, List.headD_cons, List.tail_cons]
      rintro (h | h)
      · exact hy h
      · exact hmin h
    rw [if_neg hcc]
    simp [hst]

/-- A machine about to execute `/` with 0 pushed first and 7 pushed second
(stack top 7, zero divisor below it). -/
def divZeroProbe : B93 := { B93.new (updPF spacePF 0 0 47) with stack := [7, 0] }

/-- A machine about to execute `/` with -1 pushed first and `i64::MIN`
pushed second (stack top `i64::MIN`, divisor -1 below it). -/
def minDivProbe : B93 :=
  { B93.new (updPF spacePF 0 0 47) with stack := [-(2 ^ 63), -1] }

theorem c7_witness :
    ((divZeroProbe.step [] 0).out = .trap ∧
     (divZeroProbe.step [] 0).output = []) ∧
    ((minDivProbe.step [] 0).out = .trap ∧
     (minDivProbe.step [] 0).output = []) :=
  ⟨(c7_divmod_truncation_and_zero_trap divZeroProbe [] 0 7 0 [] rfl rfl rfl).1
      (Or.inl rfl) (Or.inl rfl),
   (c7_divmod_truncation_and_zero_trap minDivProbe [] 0 (-(2 ^ 63)) (-1) []
      rfl rfl rfl).1 (Or.inl rfl) (Or.inr ⟨rfl, rfl⟩)⟩

/-- C8: with in-bounds coordinates, `p` pops y, x, v and writes v truncated
to a byte into `playfield[x][y]` (out-of-bounds coordinates are silently
ignored — no write, no fault), `g` pops y, x and pushes the stored byte, a
point update reads back what was written, and the concrete `pg` program
writing 65 at (0,0) then reading (0,0) ends with 65 on the stack. -/
theorem c8_put_get_roundtrip (m : B93) (inp : List Nat) (rand : Fin 4)
    (x y v : Int) (rest : List Int)
    (hb : m.bridge = false) (hs : m.strMode = false) :
    (m.next_instruction = 112 → m.stack = y :: x :: v :: rest →
      ((0 ≤ x ∧ x < 25 ∧ 0 ≤ y ∧ y < 80) →
        (m.step inp rand).out = .cont ∧
        (m.step inp rand).state.playfield
          = updPF m.playfield x.toNat y.toNat (v.emod 256).toNat ∧
        (m.step inp rand).state.stack = rest) ∧
      (¬ (0 ≤ x ∧ x < 25 ∧ 0 ≤ y ∧ y < 80) →
        (m.step inp rand).out = .cont ∧
        (m.step inp rand).state.playfield = m.playfield ∧
        (m.step inp rand).state.stack = rest)) ∧
    (m.next_instruction = 103 → m.stack = y :: x :: rest →
      (0 ≤ x ∧ x < 25 ∧ 0 ≤ y ∧ y < 80) →
        (m.step inp rand).out = .cont ∧
        (m.step inp rand).state.stack
          = (m.playfield x.toNat y.toNat : Int) :: rest) ∧
    (∀ (pf : Playfield) (a b w : Nat), updPF pf a b w a b = w) ∧
    ((pgProg.step [] 0).state.step [] 0).state.stack = [65] := by
  refine ⟨?_, ?_, ?_, rfl⟩
  · intro hc hst
    rw [B93.step_eq_put m inp rand hb hs hc]
    constructor
    · intro h
      have hcond : 0 ≤ y ∧ y < 80 ∧ 0 ≤ x ∧ x < 25 := by
        obtain ⟨h1, h2, h3, h4⟩ := h
        exact ⟨h3, h4, h1, h2⟩
      simp [B93.putArm, hst, hcond]
    · intro h
      have hcond : ¬ (0 ≤ y ∧ y < 80 ∧ 0 ≤ x ∧ x < 25) := by
        intro hk
        exact h ⟨hk.2.2.1, hk.2.2.2, hk.1, hk.2.1⟩
      simp [B93.putArm, hst, hcond]
  · intro hc hst h
    rw [B93.step_eq_get m inp rand hb hs hc]
    have hcond : ¬ (y < 0 ∨ 80 ≤ y ∨ x < 0 ∨ 25 ≤ x) := by omega
    simp [B93.getArm, hst, hcond]
  · intro pf a b w
    simp [updPF]

theorem c8_witness :
    (pgProg.step [] 0).out = .cont ∧
    (pgProg.step [] 0).state.playfield = updPF pgProg.playfield 0 0 65 ∧
    (pgProg.step [] 0).state.stack = [] :=
  (c8_put_get_roundtrip pgProg [] 0 0 0 65 [] rfl rfl).1 rfl rfl |>.1
    (by decide)

/-- C10: whenever `step` returns an error, the instruction pointer and the
direction are exactly as before the step; the pointer moves only on steps
that return the continue outcome (halt, error and trap all leave it alone);
and stack pops already performed in the faulting step persist, as in the
concrete probe where `,` faults on 200 yet leaves the stack popped. -/
theorem c10_fault_preserves_pointer :
    (∀ (m : B93) (inp : List Nat) (rand : Fin 4) (e : Error),
        (m.step inp rand).out = .err e →
        (m.step inp rand).state.i = m.i ∧ (m.step inp rand).state.j = m.j ∧
        (m.step inp rand).state.dir = m.dir) ∧
    (∀ (m : B93) (inp : List Nat) (rand : Fin 4),
        (m.step inp rand).out ≠ .cont →
        (m.step inp rand).state.i = m.i ∧ (m.step inp rand).state.j = m.j) ∧
    ((outChrProbe.step [] 0).out = .err (.InvalidCharacter 200) ∧
     (outChrProbe.step [] 0).state.stack = []) := by
  refine ⟨?_, ?_, rfl, rfl⟩
  · intro m inp rand e h
    refine (B93.step_frame m inp rand).2 ?_
    rw [h]
    intro h'
    exact Outcome.noConfusion h'
  · intro m inp rand h
    have hf := (B93.step_frame m inp rand).2 h
    exact ⟨hf.1, hf.2.1⟩

theorem c10_witness :
    (outChrProbe.step [] 0).state.i = outChrProbe.i ∧
    (outChrProbe.step [] 0).state.j = outChrProbe.j ∧
    (outChrProbe.step [] 0).state.dir = outChrProbe.dir :=
  c10_fault_preserves_pointer.1 outChrProbe [] 0 (.InvalidCharacter 200) rfl
